import Mathlib

/-!
Shallow embedding of `convert_gramformer.py` (quillguard repository).

The script converts a pretrained T5 grammar-correction model to two ONNX
graphs (encoder, fused decoder+lm_head), saves tokenizer artifacts, and
optionally validates the exported graphs with onnxruntime.

Modelling choices:
* Tensors are symbolic: we record how each dummy tensor was constructed
  (randint bounds and shape, ones shape, randn shape) or that it is the
  output of the encoder validation run.
* The run of the script is a total function from an environment (vocab
  size, hiddendimension, and the outcomes of the fallible external calls:
  the fast-tokenizer save block, the onnxruntime import, and the two
  validation session runs) to a list of observable events, mirroring the
  straight-line control flow and the two try/except blocks of the source.
* `DecoderWrapper` is embedded generically over the tensor types, with the
  decoder sub-network taking positional arguments
  (input_ids, encoder_hidden_states, encoder_attention_mask, use_cache,
  return_dict) as in the source call.
-/

/-- Symbolic value of a dummy tensor, recording its construction. -/
inductive Tensor where
  /-- torch.randint(lo, hi, shape) -/
  | randint (lo hi : Nat) (shape : List Nat)
  /-- torch.ones(shape) -/
  | ones (shape : List Nat)
  /-- torch.randn(shape): a freshly generated random float tensor -/
  | randn (shape : List Nat)
  /-- encoder_outputs[idx] from the encoder validation session run -/
  | encoderOutput (idx : Nat)
deriving DecidableEq

/-- The arguments of one torch.onnx.export call, as recorded in the source. -/
structure ExportCall where
  outputFile : String
  args : List Tensor
  inputNames : List String
  outputNames : List String
  dynamicAxes : List (String × List (Nat × String))
  opsetVersion : Nat
  doConstantFolding : Bool
deriving DecidableEq

/-- Observable events of one run of the script. -/
inductive Event where
  /-- a print statement -/
  | echo (msg : String)
  /-- a print statement reporting a caught failure -/
  | warn (msg : String)
  /-- T5Tokenizer.from_pretrained(name) -/
  | loadTokenizer (name : String)
  /-- T5ForConditionalGeneration.from_pretrained(name) -/
  | loadModel (name : String)
  /-- model.eval() -/
  | evalMode
  /-- Path(path).mkdir(exist_ok=existOk) -/
  | mkdir (path : String) (existOk : Bool)
  /-- tokenizer.save_pretrained(dir) -/
  | saveTokenizer (dir : String)
  /-- fast_tokenizer.backend_tokenizer.save(file) after loading name -/
  | saveFastTokenizer (name : String) (file : String)
  /-- torch.onnx.export(...) -/
  | exportGraph (c : ExportCall)
  /-- the glob loop listing the produced files -/
  | listFiles (dir : String)
  /-- the attempt to import the module called name -/
  | importModule (name : String)
  /-- ort.InferenceSession(file) -/
  | createSession (file : String)
  /-- session.run(None, inputs) -/
  | runSession (file : String) (inputs : List (String × Tensor))
deriving DecidableEq

/-- The fixed model identifier of the script. -/
def modelName : String := "prithivida/grammar_error_correcter_v1"

/-- The fixed output directory of the script. -/
def outputDir : String := "./gramformer_onnx"

/-- Path of the exported encoder graph. -/
def encoderOnnxFile : String := outputDir ++ "/encoder_model.onnx"

/-- Path of the exported decoder graph. -/
def decoderOnnxFile : String := outputDir ++ "/decoder_model.onnx"

/-- dummy_input_ids = torch.randint(0, tokenizer.vocab_size, (1, 20)) -/
def dummyInputIds (vocabSize : Nat) : Tensor := Tensor.randint 0 vocabSize [1, 20]

/-- dummy_attention_mask = torch.ones(1, 20) -/
def dummyAttentionMask : Tensor := Tensor.ones [1, 20]

/-- dummy_decoder_input_ids = torch.randint(0, tokenizer.vocab_size, (1, 10)) -/
def dummyDecoderInputIds (vocabSize : Nat) : Tensor := Tensor.randint 0 vocabSize [1, 10]

/-- dummy_encoder_hidden_states = torch.randn(1, 20, model.config.d_model) -/
def dummyEncoderHiddenStates (dModel : Nat) : Tensor := Tensor.randn [1, 20, dModel]

/-- dummy_encoder_attention_mask = torch.ones(1, 20) -/
def dummyEncoderAttentionMask : Tensor := Tensor.ones [1, 20]

/-- The encoder torch.onnx.export call (source lines 58-71). -/
def encoderExportCall (vocabSize : Nat) : ExportCall :=
  { outputFile := encoderOnnxFile
  , args := [dummyInputIds vocabSize, dummyAttentionMask]
  , inputNames := ["input_ids", "attention_mask"]
  , outputNames := ["last_hidden_state"]
  , dynamicAxes :=
      [ ("input_ids", [(0, "batch_size"), (1, "sequence_length")])
      , ("attention_mask", [(0, "batch_size"), (1, "sequence_length")])
      , ("last_hidden_state", [(0, "batch_size"), (1, "sequence_length")]) ]
  , opsetVersion := 14
  , doConstantFolding := true }

/-- The decoder torch.onnx.export call (source lines 101-123). -/
def decoderExportCall (vocabSize dModel : Nat) : ExportCall :=
  { outputFile := decoderOnnxFile
  , args := [dummyDecoderInputIds vocabSize, dummyEncoderHiddenStates dModel,
             dummyEncoderAttentionMask]
  , inputNames := ["input_ids", "encoder_hidden_states", "encoder_attention_mask"]
  , outputNames := ["logits"]
  , dynamicAxes :=
      [ ("input_ids", [(0, "batch_size"), (1, "decoder_sequence_length")])
      , ("encoder_hidden_states", [(0, "batch_size"), (1, "encoder_sequence_length")])
      , ("encoder_attention_mask", [(0, "batch_size"), (1, "encoder_sequence_length")])
      , ("logits", [(0, "batch_size"), (1, "decoder_sequence_length")]) ]
  , opsetVersion := 14
  , doConstantFolding := true }

/-- Inputs fed to the encoder validation session run (source lines 140-146). -/
def encoderRunInputs (vocabSize : Nat) : List (String × Tensor) :=
  [("input_ids", dummyInputIds vocabSize), ("attention_mask", dummyAttentionMask)]

/-- Inputs fed to the decoder validation session run (source lines 151-158):
the encoder_hidden_states input is encoder_outputs[0] from the encoder run. -/
def decoderRunInputs (vocabSize : Nat) : List (String × Tensor) :=
  [ ("input_ids", dummyDecoderInputIds vocabSize)
  , ("encoder_hidden_states", Tensor.encoderOutput 0)
  , ("encoder_attention_mask", dummyEncoderAttentionMask) ]

/-- Environment of one run: model constants and the outcomes of the fallible
external calls.  `none` means the call succeeds; `some e` means it raises an
exception with message `e`. -/
structure Env where
  vocabSize : Nat
  dModel : Nat
  /-- outcome of the fast-tokenizer block body (import, load, save) -/
  fastTokSave : Option String
  /-- whether `import onnxruntime` succeeds -/
  ortAvailable : Bool
  /-- outcome of the encoder InferenceSession creation and run -/
  encoderRun : Option String
  /-- outcome of the decoder InferenceSession creation and run -/
  decoderRun : Option String

/-- The try-block saving tokenizer.json (source lines 35-39): events emitted
and its outcome.  On failure the raised exception carries message `e`. -/
def fastTokTry (env : Env) : List Event × Option String :=
  match env.fastTokSave with
  | none =>
      ([ Event.saveFastTokenizer modelName (outputDir ++ "/tokenizer.json")
       , Event.echo "Saved tokenizer.json for Rust compatibility" ], none)
  | some e => ([], some e)

/-- The except-handler of the fast-tokenizer block (source lines 40-42). -/
def fastTokHandler (e : String) : List Event :=
  [ Event.warn ("Could not save tokenizer.json: " ++ e)
  , Event.echo "Using SentencePiece model instead" ]

/-- Exceptions of the validation block: a failed `import onnxruntime`, or an
ordinary exception raised by a session. -/
inductive PyErr where
  | importError
  | exn (msg : String)
deriving DecidableEq

/-- The validation try-block body (source lines 135-161): events emitted and
its outcome.  A raised exception aborts the rest of the body. -/
def validationTry (env : Env) : List Event × Option PyErr :=
  if env.ortAvailable then
    let encPart : List Event :=
      [ Event.importModule "onnxruntime"
      , Event.createSession encoderOnnxFile
      , Event.runSession encoderOnnxFile (encoderRunInputs env.vocabSize) ]
    match env.encoderRun with
    | some e => (encPart, some (PyErr.exn e))
    | none =>
      let decPart : List Event :=
        encPart ++
        [ Event.echo "Encoder ONNX model working!"
        , Event.createSession decoderOnnxFile
        , Event.runSession decoderOnnxFile (decoderRunInputs env.vocabSize) ]
      match env.decoderRun with
      | some e => (decPart, some (PyErr.exn e))
      | none =>
        (decPart ++
         [ Event.echo "Decoder ONNX model (with LM head) working!"
         , Event.echo "All ONNX models are functional and ready for Rust integration!" ],
         none)
  else ([Event.importModule "onnxruntime"], some PyErr.importError)

/-- The two except-handlers of the validation block (source lines 163-166). -/
def validationHandler : PyErr → List Event
  | PyErr.importError =>
      [Event.warn "onnxruntime not available for testing, but ONNX files should be valid"]
  | PyErr.exn e => [Event.warn ("ONNX model test failed: " ++ e)]

/-- try/except: run the body; a raised exception is consumed by the handler,
so the combined block always completes normally. -/
def runCatch {ε : Type} (body : List Event × Option ε) (handler : ε → List Event) :
    List Event :=
  match body with
  | (evs, none) => evs
  | (evs, some e) => evs ++ handler e

/-- The straight-line part of the run before the fast-tokenizer block
(source lines 16-32). -/
def loadPhase : List Event :=
  [ Event.echo "Converting Gramformer T5 model to ONNX..."
  , Event.echo ("Loading model: " ++ modelName)
  , Event.loadTokenizer modelName
  , Event.loadModel modelName
  , Event.evalMode
  , Event.mkdir outputDir true
  , Event.echo "Saving tokenizer..."
  , Event.saveTokenizer outputDir ]

/-- The straight-line part between the fast-tokenizer block and the
validation block: both onnx exports (source lines 44-134). -/
def exportPhase (env : Env) : List Event :=
  [ Event.echo "Preparing ONNX export..."
  , Event.echo "Exporting encoder..."
  , Event.exportGraph (encoderExportCall env.vocabSize)
  , Event.echo "Exporting decoder..."
  , Event.exportGraph (decoderExportCall env.vocabSize env.dModel)
  , Event.echo "ONNX conversion complete!"
  , Event.listFiles outputDir
  , Event.echo "Testing ONNX models..." ]

/-- One full run of convert_gramformer_to_onnx: the trace of its events. -/
def runScript (env : Env) : List Event :=
  loadPhase
    ++ runCatch (fastTokTry env) fastTokHandler
    ++ exportPhase env
    ++ runCatch (validationTry env) validationHandler

/-- decoder_outputs: the source reads .last_hidden_state of the value the
decoder sub-network returns (with return_dict=True). -/
structure DecoderOutput (H C : Type) where
  last_hidden_state : H
  past_key_values : Option C

/-- The fused unit of source lines 76-95: the decoder sub-network together
with the lm_head.  The decoder takes, in the order of the keyword arguments
of the source call, input_ids, encoder_hidden_states,
encoder_attention_mask, use_cache, return_dict. -/
structure DecoderWrapper (T H M L C : Type) where
  decoder : T → H → M → Bool → Bool → DecoderOutput H C
  lm_head : H → L

/-- DecoderWrapper.forward (source lines 82-93): calls the decoder with
use_cache=False and return_dict=True and applies lm_head to the
last_hidden_state of the result. -/
def DecoderWrapper.forward {T H M L C : Type} (w : DecoderWrapper T H M L C)
    (input_ids : T) (encoder_hidden_states : H) (encoder_attention_mask : M) : L :=
  let decoder_outputs :=
    w.decoder input_ids encoder_hidden_states encoder_attention_mask false true
  w.lm_head decoder_outputs.last_hidden_state

/-- Claim C1: every invocation of the fused decoder unit forward function
returns the lm_head projection applied to the decoder sub-network output
computed with caching disabled (use_cache=False); the result depends only on
the cache-disabled behaviour of the decoder (so no cache crosses the graph
boundary), and in particular is independent of whatever past_key_values the
decoder produces. -/
theorem C1_decoder_forward {T H M L C C2 : Type}
    (w : DecoderWrapper T H M L C)
    (input_ids : T) (encoder_hidden_states : H) (encoder_attention_mask : M) :
    w.forward input_ids encoder_hidden_states encoder_attention_mask =
      w.lm_head
        (w.decoder input_ids encoder_hidden_states encoder_attention_mask
          false true).last_hidden_state ∧
    ∀ (w2 : DecoderWrapper T H M L C2),
      (∀ i e m rd,
        (w2.decoder i e m false rd).last_hidden_state =
        (w.decoder i e m false rd).last_hidden_state) →
      w2.lm_head = w.lm_head →
      w2.forward input_ids encoder_hidden_states encoder_attention_mask =
        w.forward input_ids encoder_hidden_states encoder_attention_mask := by
  constructor
  · rfl
  · intro w2 hdec hhead
    simp only [DecoderWrapper.forward, hhead, hdec]

/-- A concrete instantiation of the fused decoder unit over natural numbers,
used to witness C1. -/
def natWrapper : DecoderWrapper Nat Nat Nat Nat Nat :=
  { decoder := fun i e m u _ =>
      { last_hidden_state := i + 2 * e + 3 * m + (if u then 100 else 0)
      , past_key_values := if u then some (i + e) else none }
  , lm_head := fun h => 10 * h + 7 }

/-- Witness for C1 at a concrete wrapper and inputs. -/
theorem C1_decoder_forward_witness :
    natWrapper.forward 1 2 3 =
      natWrapper.lm_head ((natWrapper.decoder 1 2 3 false true).last_hidden_state) ∧
    ∀ (w2 : DecoderWrapper Nat Nat Nat Nat Nat),
      (∀ i e m rd,
        (w2.decoder i e m false rd).last_hidden_state =
        (natWrapper.decoder i e m false rd).last_hidden_state) →
      w2.lm_head = natWrapper.lm_head →
      w2.forward 1 2 3 = natWrapper.forward 1 2 3 :=
  C1_decoder_forward natWrapper 1 2 3

/-- Events of the export phase occur in every run, whatever the environment. -/
theorem mem_runScript_of_mem_exportPhase {env : Env} {e : Event}
    (h : e ∈ exportPhase env) : e ∈ runScript env := by
  simp only [runScript, List.mem_append]
  tauto

/-- Claim C2: the decoder export call serializes the fused decoder+projection
unit with logits as its only named output, declares dynamic axes exactly as
batch and decoder_sequence_length on input_ids and logits and batch and
encoder_sequence_length on encoder_hidden_states and
encoder_attention_mask, and applies constant folding; this call occurs in
every run. -/
theorem C2_decoder_export_config (vocabSize dModel : Nat) (env : Env) :
    (decoderExportCall vocabSize dModel).outputNames = ["logits"] ∧
    (decoderExportCall vocabSize dModel).dynamicAxes =
      [ ("input_ids", [(0, "batch_size"), (1, "decoder_sequence_length")])
      , ("encoder_hidden_states", [(0, "batch_size"), (1, "encoder_sequence_length")])
      , ("encoder_attention_mask", [(0, "batch_size"), (1, "encoder_sequence_length")])
      , ("logits", [(0, "batch_size"), (1, "decoder_sequence_length")]) ] ∧
    (decoderExportCall vocabSize dModel).doConstantFolding = true ∧
    Event.exportGraph (decoderExportCall env.vocabSize env.dModel) ∈ runScript env := by
  refine ⟨rfl, rfl, rfl, ?_⟩
  exact mem_runScript_of_mem_exportPhase (by simp [exportPhase])

/-- Claim C3: the encoder export call traces the encoder on a dummy token-id
tensor of shape (1, 20) with values drawn uniformly from the interval from 0
to vocab_size and an all-ones mask of shape (1, 20), has last_hidden_state
as its only named output, declares batch and sequence-length axes dynamic on
input_ids, attention_mask and last_hidden_state, and applies constant
folding; this call occurs in every run. -/
theorem C3_encoder_export_config (vocabSize : Nat) (env : Env) :
    (encoderExportCall vocabSize).args =
      [Tensor.randint 0 vocabSize [1, 20], Tensor.ones [1, 20]] ∧
    (encoderExportCall vocabSize).outputNames = ["last_hidden_state"] ∧
    (encoderExportCall vocabSize).dynamicAxes =
      [ ("input_ids", [(0, "batch_size"), (1, "sequence_length")])
      , ("attention_mask", [(0, "batch_size"), (1, "sequence_length")])
      , ("last_hidden_state", [(0, "batch_size"), (1, "sequence_length")]) ] ∧
    (encoderExportCall vocabSize).doConstantFolding = true ∧
    Event.exportGraph (encoderExportCall env.vocabSize) ∈ runScript env := by
  refine ⟨rfl, rfl, rfl, rfl, ?_⟩
  exact mem_runScript_of_mem_exportPhase (by simp [exportPhase])

/-- Claim C10: both export calls use ONNX opset version 14, and both occur in
every run. -/
theorem C10_opset_version (vocabSize dModel : Nat) (env : Env) :
    (encoderExportCall vocabSize).opsetVersion = 14 ∧
    (decoderExportCall vocabSize dModel).opsetVersion = 14 ∧
    Event.exportGraph (encoderExportCall env.vocabSize) ∈ runScript env ∧
    Event.exportGraph (decoderExportCall env.vocabSize env.dModel) ∈ runScript env := by
  refine ⟨rfl, rfl, ?_, ?_⟩ <;>
    exact mem_runScript_of_mem_exportPhase (by simp [exportPhase])

/-- Claim C9: in every run, the model loaded is exactly the constant
"prithivida/grammar_error_correcter_v1" and the output directory is exactly
"./gramformer_onnx", created with exist_ok=True; no other model load or
directory creation happens, and the environment (the only input) cannot
change either. -/
theorem C9_fixed_constants (env : Env) :
    modelName = "prithivida/grammar_error_correcter_v1" ∧
    outputDir = "./gramformer_onnx" ∧
    Event.loadModel modelName ∈ runScript env ∧
    Event.mkdir outputDir true ∈ runScript env ∧
    (∀ s, Event.loadModel s ∈ runScript env → s = modelName) ∧
    (∀ p b, Event.mkdir p b ∈ runScript env → p = outputDir ∧ b = true) := by
  obtain ⟨v, d, ft, ort, er, dr⟩ := env
  refine ⟨rfl, rfl, ?_, ?_, ?_, ?_⟩ <;>
    cases ft <;> cases ort <;> cases er <;> cases dr <;>
      simp_all [runScript, loadPhase, exportPhase, runCatch, fastTokTry,
        fastTokHandler, validationTry, validationHandler]

/-- Claim C4: whenever the validation runtime is available and the encoder
run succeeds, the decoder artifact is run with the dummy decoder token ids,
the dummy encoder attention mask, and encoder_outputs[0] captured from the
encoder run (never a freshly generated random tensor) as its
encoder_hidden_states input. -/
theorem C4_decoder_uses_encoder_output (env : Env)
    (h1 : env.ortAvailable = true) (h2 : env.encoderRun = none) :
    Event.runSession decoderOnnxFile (decoderRunInputs env.vocabSize) ∈ runScript env ∧
    ∀ ins, Event.runSession decoderOnnxFile ins ∈ runScript env →
      List.lookup "encoder_hidden_states" ins = some (Tensor.encoderOutput 0) ∧
      ∀ sh, List.lookup "encoder_hidden_states" ins ≠ some (Tensor.randn sh) := by
  obtain ⟨v, d, ft, ort, er, dr⟩ := env
  simp only at h1 h2
  subst h1 h2
  cases ft <;> cases dr <;>
    simp_all [runScript, loadPhase, exportPhase, runCatch, fastTokTry,
      fastTokHandler, validationTry, validationHandler, encoderRunInputs,
      decoderRunInputs, encoderOnnxFile, decoderOnnxFile, outputDir,
      dummyDecoderInputIds, dummyEncoderAttentionMask, dummyInputIds,
      dummyAttentionMask, List.lookup]

/-- Environment used to witness C4: runtime available, both runs succeed. -/
def envC4 : Env := ⟨100, 8, none, true, none, none⟩

/-- Witness for C4 at a concrete environment. -/
theorem C4_decoder_uses_encoder_output_witness :
    envC4.ortAvailable = true ∧ envC4.encoderRun = none ∧
    (Event.runSession decoderOnnxFile (decoderRunInputs envC4.vocabSize) ∈ runScript envC4 ∧
     ∀ ins, Event.runSession decoderOnnxFile ins ∈ runScript envC4 →
       List.lookup "encoder_hidden_states" ins = some (Tensor.encoderOutput 0) ∧
       ∀ sh, List.lookup "encoder_hidden_states" ins ≠ some (Tensor.randn sh)) :=
  ⟨rfl, rfl, C4_decoder_uses_encoder_output envC4 rfl rfl⟩

/-- Claim C5: any failure of the fast-tokenizer block is caught there, a
warning carrying the failure message is reported, and the run continues
unchanged: both graph exports still occur, and the whole trace after the
tokenizer block is the same as in a run where the block succeeds. -/
theorem C5_fast_tokenizer_failure_nonfatal (env : Env) (e : String)
    (h : env.fastTokSave = some e) :
    Event.warn ("Could not save tokenizer.json: " ++ e) ∈ runScript env ∧
    Event.exportGraph (encoderExportCall env.vocabSize) ∈ runScript env ∧
    Event.exportGraph (decoderExportCall env.vocabSize env.dModel) ∈ runScript env ∧
    List.drop 10 (runScript env) =
      List.drop 10 (runScript { env with fastTokSave := none }) := by
  obtain ⟨v, d, ft, ort, er, dr⟩ := env
  simp only at h
  subst h
  refine ⟨?_, ?_, ?_, ?_⟩
  · simp [runScript, loadPhase, exportPhase, runCatch, fastTokTry, fastTokHandler]
  · exact mem_runScript_of_mem_exportPhase (by simp [exportPhase])
  · exact mem_runScript_of_mem_exportPhase (by simp [exportPhase])
  · cases ort <;> cases er <;> cases dr <;> rfl

/-- Environment used to witness C5: the fast-tokenizer save raises. -/
def envC5 : Env := ⟨100, 8, some "disk full", true, none, none⟩

/-- Witness for C5 at a concrete environment. -/
theorem C5_fast_tokenizer_failure_nonfatal_witness :
    envC5.fastTokSave = some "disk full" ∧
    (Event.warn ("Could not save tokenizer.json: " ++ "disk full") ∈ runScript envC5 ∧
     Event.exportGraph (encoderExportCall envC5.vocabSize) ∈ runScript envC5 ∧
     Event.exportGraph (decoderExportCall envC5.vocabSize envC5.dModel) ∈ runScript envC5 ∧
     List.drop 10 (runScript envC5) =
       List.drop 10 (runScript { envC5 with fastTokSave := none })) :=
  ⟨rfl, C5_fast_tokenizer_failure_nonfatal envC5 "disk full" rfl⟩

/-- Claim C6: a missing validation runtime, or an exception in a validation
run, is caught: the run ends normally with the corresponding warning as its
last event (the advisory one for the missing runtime), and both export
events are in the trace in every environment. -/
theorem C6_validation_failure_nonfatal (env : Env) :
    (env.ortAvailable = false →
      (runScript env).getLast? =
        some (Event.warn "onnxruntime not available for testing, but ONNX files should be valid")) ∧
    (∀ e, env.ortAvailable = true →
      (env.encoderRun = some e ∨ (env.encoderRun = none ∧ env.decoderRun = some e)) →
      (runScript env).getLast? = some (Event.warn ("ONNX model test failed: " ++ e))) ∧
    Event.exportGraph (encoderExportCall env.vocabSize) ∈ runScript env ∧
    Event.exportGraph (decoderExportCall env.vocabSize env.dModel) ∈ runScript env := by
  obtain ⟨v, d, ft, ort, er, dr⟩ := env
  refine ⟨?_, ?_, ?_, ?_⟩
  · intro h
    simp only at h
    subst h
    cases ft <;> cases er <;> cases dr <;> rfl
  · intro e h hcase
    simp only at h hcase
    subst h
    rcases hcase with h1 | ⟨h1, h2⟩
    · subst h1
      cases ft <;> cases dr <;> rfl
    · subst h1 h2
      cases ft <;> rfl
  · exact mem_runScript_of_mem_exportPhase (by simp [exportPhase])
  · exact mem_runScript_of_mem_exportPhase (by simp [exportPhase])

/-- Environment used to witness C6: onnxruntime is not importable. -/
def envC6 : Env := ⟨100, 8, none, false, none, none⟩

/-- Second environment used to witness C6: the encoder validation run raises. -/
def envC6b : Env := ⟨100, 8, none, true, some "shape mismatch", none⟩

/-- Witness for C6 at two concrete environments. -/
theorem C6_validation_failure_nonfatal_witness :
    envC6.ortAvailable = false ∧
    (runScript envC6).getLast? =
      some (Event.warn "onnxruntime not available for testing, but ONNX files should be valid") ∧
    envC6b.ortAvailable = true ∧ envC6b.encoderRun = some "shape mismatch" ∧
    (runScript envC6b).getLast? =
      some (Event.warn ("ONNX model test failed: " ++ "shape mismatch")) ∧
    Event.exportGraph (encoderExportCall envC6.vocabSize) ∈ runScript envC6 ∧
    Event.exportGraph (decoderExportCall envC6.vocabSize envC6.dModel) ∈ runScript envC6 :=
  ⟨rfl, (C6_validation_failure_nonfatal envC6).1 rfl, rfl, rfl,
   (C6_validation_failure_nonfatal envC6b).2.1 "shape mismatch" rfl (Or.inl rfl),
   (C6_validation_failure_nonfatal envC6).2.2.1,
   (C6_validation_failure_nonfatal envC6).2.2.2⟩

/-- A success or failure result attributable to the decoder artifact exists
in a trace: either the decoder success message was printed, or the decoder
session was at least run (so that a subsequent failure message concerns it). -/
def decoderResultReported (tr : List Event) : Prop :=
  Event.echo "Decoder ONNX model (with LM head) working!" ∈ tr ∨
  ∃ ins, Event.runSession decoderOnnxFile ins ∈ tr

/-- Environment refuting C7: runtime available, encoder run raises. -/
def envC7 : Env := ⟨100, 8, none, true, some "encoder run failed", none⟩

/-- Counterexample to C7: with the runtime available and the encoder run
failing, the single except-handler prints one generic failure message and no
result of any kind is reported for the decoder artifact, which is never
run. -/
theorem C7_counterexample :
    envC7.ortAvailable = true ∧ ¬ decoderResultReported (runScript envC7) := by
  refine ⟨rfl, ?_⟩
  simp [decoderResultReported, runScript, loadPhase, exportPhase, runCatch,
    fastTokTry, fastTokHandler, validationTry, validationHandler, envC7,
    encoderRunInputs, decoderOnnxFile, encoderOnnxFile, outputDir, modelName,
    dummyInputIds, dummyAttentionMask]

/-- Claim C7 as amended: when the runtime is available, the validator
reports the per-artifact success message for each artifact its validation
reaches: the encoder success message whenever the encoder run succeeds, and
the decoder success message whenever both runs succeed.  A validation
failure is reported by a single generic failure message: when the decoder
run fails, that message is reported and the decoder success message is not;
when the encoder run fails, the decoder artifact is never run and no
result, success or failure, is reported for it. -/
theorem C7_amended_per_artifact_reporting (env : Env)
    (h : env.ortAvailable = true) :
    (env.encoderRun = none →
      Event.echo "Encoder ONNX model working!" ∈ runScript env) ∧
    (env.encoderRun = none → env.decoderRun = none →
      Event.echo "Decoder ONNX model (with LM head) working!" ∈ runScript env) ∧
    (∀ e, env.encoderRun = none → env.decoderRun = some e →
      Event.runSession decoderOnnxFile (decoderRunInputs env.vocabSize) ∈ runScript env ∧
      Event.warn ("ONNX model test failed: " ++ e) ∈ runScript env ∧
      Event.echo "Decoder ONNX model (with LM head) working!" ∉ runScript env) ∧
    (∀ e, env.encoderRun = some e →
      Event.warn ("ONNX model test failed: " ++ e) ∈ runScript env ∧
      ¬ decoderResultReported (runScript env)) := by
  obtain ⟨v, d, ft, ort, er, dr⟩ := env
  simp only at h
  subst h
  refine ⟨?_, ?_, ?_, ?_⟩
  · intro h2
    simp only at h2
    subst h2
    cases ft <;> cases dr <;>
      simp [runScript, loadPhase, exportPhase, runCatch, fastTokTry,
        fastTokHandler, validationTry, validationHandler]
  · intro h2 h3
    simp only at h2 h3
    subst h2 h3
    cases ft <;>
      simp [runScript, loadPhase, exportPhase, runCatch, fastTokTry,
        fastTokHandler, validationTry, validationHandler]
  · intro e h2 h3
    simp only at h2 h3
    subst h2 h3
    refine ⟨?_, ?_, ?_⟩ <;>
      cases ft <;>
        simp [runScript, loadPhase, exportPhase, runCatch, fastTokTry,
          fastTokHandler, validationTry, validationHandler, encoderRunInputs,
          decoderRunInputs, decoderOnnxFile, encoderOnnxFile, outputDir,
          modelName, dummyInputIds, dummyAttentionMask, dummyDecoderInputIds,
          dummyEncoderAttentionMask]
  · intro e h2
    simp only at h2
    subst h2
    constructor
    · cases ft <;>
        simp [runScript, loadPhase, exportPhase, runCatch, fastTokTry,
          fastTokHandler, validationTry, validationHandler]
    · cases ft <;>
        simp [decoderResultReported, runScript, loadPhase, exportPhase,
          runCatch, fastTokTry, fastTokHandler, validationTry,
          validationHandler, encoderRunInputs, decoderOnnxFile,
          encoderOnnxFile, outputDir, modelName, dummyInputIds,
          dummyAttentionMask]

/-- Environment used to witness the decoder-failure clause of the amended
C7: runtime available, encoder run succeeds, decoder run raises. -/
def envC7b : Env := ⟨100, 8, none, true, none, some "decoder run failed"⟩

/-- Witness for the amended C7 at three concrete environments: both runs
succeed, only the decoder run fails, and the encoder run fails. -/
theorem C7_amended_per_artifact_reporting_witness :
    envC4.ortAvailable = true ∧ envC4.encoderRun = none ∧ envC4.decoderRun = none ∧
    Event.echo "Encoder ONNX model working!" ∈ runScript envC4 ∧
    Event.echo "Decoder ONNX model (with LM head) working!" ∈ runScript envC4 ∧
    envC7b.ortAvailable = true ∧ envC7b.encoderRun = none ∧
    envC7b.decoderRun = some "decoder run failed" ∧
    Event.runSession decoderOnnxFile (decoderRunInputs envC7b.vocabSize) ∈ runScript envC7b ∧
    Event.warn ("ONNX model test failed: " ++ "decoder run failed") ∈ runScript envC7b ∧
    Event.echo "Decoder ONNX model (with LM head) working!" ∉ runScript envC7b ∧
    envC7.ortAvailable = true ∧ envC7.encoderRun = some "encoder run failed" ∧
    Event.warn ("ONNX model test failed: " ++ "encoder run failed") ∈ runScript envC7 ∧
    ¬ decoderResultReported (runScript envC7) :=
  ⟨rfl, rfl, rfl,
   (C7_amended_per_artifact_reporting envC4 rfl).1 rfl,
   (C7_amended_per_artifact_reporting envC4 rfl).2.1 rfl rfl,
   rfl, rfl, rfl,
   ((C7_amended_per_artifact_reporting envC7b rfl).2.2.1 "decoder run failed" rfl rfl).1,
   ((C7_amended_per_artifact_reporting envC7b rfl).2.2.1 "decoder run failed" rfl rfl).2.1,
   ((C7_amended_per_artifact_reporting envC7b rfl).2.2.1 "decoder run failed" rfl rfl).2.2,
   rfl, rfl,
   ((C7_amended_per_artifact_reporting envC7 rfl).2.2.2 "encoder run failed" rfl).1,
   ((C7_amended_per_artifact_reporting envC7 rfl).2.2.2 "encoder run failed" rfl).2⟩

/-- The model or tokenizer load step. -/
def isLoadEvent : Event → Bool
  | Event.loadTokenizer _ => true
  | Event.loadModel _ => true
  | _ => false

/-- The tokenizer persistence step. -/
def isSaveTokenizerEvent : Event → Bool
  | Event.saveTokenizer _ => true
  | Event.saveFastTokenizer _ _ => true
  | _ => false

/-- The encoder graph export step. -/
def isEncoderExportEvent : Event → Bool
  | Event.exportGraph c => c.outputFile == encoderOnnxFile
  | _ => false

/-- The decoder graph export step. -/
def isDecoderExportEvent : Event → Bool
  | Event.exportGraph c => c.outputFile == decoderOnnxFile
  | _ => false

/-- The validation step (runtime import, session creation, session run). -/
def isValidationEvent : Event → Bool
  | Event.importModule _ => true
  | Event.createSession _ => true
  | Event.runSession _ _ => true
  | _ => false

/-- Claim C8: in every run the steps begin in the fixed order
load, tokenizer persistence, encoder export, decoder export, validation
(first occurrences strictly increasing), and each export step happens
exactly once, reflecting the strictly sequential single-threaded control
flow of the script. -/
theorem C8_sequential_order (env : Env) :
    ∃ i1 i2 i3 i4 i5 : Nat,
      i1 < i2 ∧ i2 < i3 ∧ i3 < i4 ∧ i4 < i5 ∧
      (runScript env).findIdx? isLoadEvent = some i1 ∧
      (runScript env).findIdx? isSaveTokenizerEvent = some i2 ∧
      (runScript env).findIdx? isEncoderExportEvent = some i3 ∧
      (runScript env).findIdx? isDecoderExportEvent = some i4 ∧
      (runScript env).findIdx? isValidationEvent = some i5 ∧
      ((runScript env).filter isEncoderExportEvent).length = 1 ∧
      ((runScript env).filter isDecoderExportEvent).length = 1 := by
  obtain ⟨v, d, ft, ort, er, dr⟩ := env
  refine ⟨2, 7, 12, 14, 18, by decide, by decide, by decide, by decide,
    ?_, ?_, ?_, ?_, ?_, ?_, ?_⟩ <;>
    cases ft <;> cases ort <;> cases er <;> cases dr <;> rfl

/-- Witness for C9 at a concrete environment, exercising also the
uniqueness clauses of the theorem at concrete events. -/
theorem C9_fixed_constants_witness :
    Event.loadModel modelName ∈ runScript envC4 ∧
    Event.mkdir outputDir true ∈ runScript envC4 ∧
    modelName = "prithivida/grammar_error_correcter_v1" ∧
    outputDir = "./gramformer_onnx" ∧
    "prithivida/grammar_error_correcter_v1" = modelName :=
  ⟨(C9_fixed_constants envC4).2.2.1, (C9_fixed_constants envC4).2.2.2.1,
   (C9_fixed_constants envC4).1, (C9_fixed_constants envC4).2.1,
   (C9_fixed_constants envC4).2.2.2.2.1 "prithivida/grammar_error_correcter_v1"
     ((C9_fixed_constants envC4).2.2.1)⟩
